import Mathlib

/-!
Verification of the deepflow workflow editor core: graph mutation
(delete-node cascade, undo), edge creation guards, autosave debouncing,
session/execution request construction and transport-failure handling.
Each definition is a shallow embedding of the corresponding function in
the repository sources.
-/

namespace Deepflow

/-- Node kinds, from `NodeType` in components/workflow/node.tsx. -/
inductive NodeType where
  | agent
  | tools
  | start
  | «end»
  deriving DecidableEq, Repr

/-- Tool identifiers, from `ToolType` in components/workflow/node.tsx. -/
inductive ToolType where
  | tavily_search
  | google_search
  | human_assistance
  | crawler
  | rag
  deriving DecidableEq, Repr

/-- Node position, from the `position: {x, y}` field of a React Flow node. -/
structure Pos where
  x : Int
  y : Int
  deriving DecidableEq, Repr

/-- The duck-typed node payload of components/workflow/node.tsx
(`BaseNodeData` with the optional per-kind fields of `AgentNodeData`,
`ToolsNodeData` and `SystemNodeData`). -/
structure NodeData where
  name : String
  description : Option String := none
  nodeType : NodeType
  prompt : Option String := none
  selectedTools : List ToolType := []
  ragDataSource : Option String := none
  deriving DecidableEq, Repr

/-- A workflow node (the fields of a React Flow `Node` that the graph
logic reads). -/
structure Node where
  id : String
  position : Pos
  data : NodeData
  deriving DecidableEq, Repr

/-- A workflow edge (the fields of a React Flow `Edge` that the graph
logic reads). -/
structure Edge where
  id : String
  source : String
  target : String
  sourceHandle : Option String := none
  targetHandle : Option String := none
  deriving DecidableEq, Repr

/-- The undo record, from `DeletedNodeData` in workflow/page.tsx. -/
structure DeletedNodeData where
  node : Node
  connectedEdges : List Edge
  timestamp : Nat
  deriving DecidableEq, Repr

/-- The graph state held by WorkflowPage: the `nodes` and `edges` React
states plus the `deletedNodeData` undo state of workflow/page.tsx. -/
structure FlowState where
  nodes : List Node
  edges : List Edge
  deletedNodeData : Option DeletedNodeData := none
  deriving DecidableEq, Repr

/-- The predicate used by `handleDeleteNode` in workflow/page.tsx to
collect the edges connected to a node:
`edge.source === nodeToDelete.id || edge.target === nodeToDelete.id`. -/
def connectedTo (nodeId : String) (e : Edge) : Bool :=
  decide (e.source = nodeId) || decide (e.target = nodeId)

/-- `handleDeleteNode` from workflow/page.tsx (lines 249-279), identical
to `deleteNodeWithUndo` in the sidebar component: records the node and
its connected edges as the undo record, then filters the node out of
`nodes` and every connected edge out of `edges`.  `now` is `Date.now()`. -/
def handleDeleteNode (s : FlowState) (nodeToDelete : Node) (now : Nat) : FlowState :=
  { nodes := s.nodes.filter (fun node => !decide (node.id = nodeToDelete.id)),
    edges := s.edges.filter (fun edge => !connectedTo nodeToDelete.id edge),
    deletedNodeData := some
      { node := nodeToDelete,
        connectedEdges := s.edges.filter (fun edge => connectedTo nodeToDelete.id edge),
        timestamp := now } }

/-- The 10-second undo timeout callback of `handleDeleteNode`
(`setDeletedNodeData(null)` after 10000 ms): the record becomes
unrecoverable, the graph itself is untouched. -/
def undoTimerExpire (s : FlowState) : FlowState :=
  { s with deletedNodeData := none }

/-- `undoNodeDeletion` from workflow/page.tsx (lines 282-296): a no-op
when no deletion record is pending; otherwise appends the recorded node
and its recorded edges back and clears the record. -/
def undoNodeDeletion (s : FlowState) : FlowState :=
  match s.deletedNodeData with
  | none => s
  | some d =>
    { nodes := s.nodes ++ [d.node],
      edges := s.edges ++ d.connectedEdges,
      deletedNodeData := none }

/-- The initial graph of workflow/page.tsx (`initialNodes`), with the
style-only fields dropped. -/
def initialNodes : List Node :=
  [ { id := "start", position := { x := 100, y := 100 },
      data := { name := "START", description := some "Starting point", nodeType := .start } },
    { id := "agent", position := { x := 300, y := 100 },
      data := { name := "Main Agent", description := some "Primary AI Agent", nodeType := .agent,
                prompt := some "You are a helpful AI assistant that can use various tools to help users accomplish their tasks." } },
    { id := "tools", position := { x := 500, y := 100 },
      data := { name := "Tool Suite", description := some "Available Tools", nodeType := .tools,
                selectedTools := [.tavily_search, .google_search] } },
    { id := "end", position := { x := 700, y := 100 },
      data := { name := "END", description := some "End point", nodeType := .«end» } } ]

/-- The initial edges of workflow/page.tsx (`initialEdges`), with the
style-only fields dropped. -/
def initialEdges : List Edge :=
  [ { id := "e-start-agent", source := "start", target := "agent",
      sourceHandle := some "output", targetHandle := some "input" },
    { id := "e-agent-tools", source := "agent", target := "tools",
      sourceHandle := some "output", targetHandle := some "input" },
    { id := "e-tools-agent", source := "tools", target := "agent",
      sourceHandle := some "output", targetHandle := some "input" },
    { id := "e-agent-end", source := "agent", target := "end",
      sourceHandle := some "output", targetHandle := some "input" } ]

/-- The initial page state. -/
def initialFlow : FlowState :=
  { nodes := initialNodes, edges := initialEdges }

/-- In a list of nodes with pairwise distinct ids that contains `n`,
filtering for the id of `n` yields exactly `[n]`. -/
theorem filter_id_eq_single (n : Node) :
    ∀ l : List Node, (l.map Node.id).Nodup → n ∈ l →
      l.filter (fun m => decide (m.id = n.id)) = [n] := by
  intro l
  induction l with
  | nil => intro _ h; cases h
  | cons m t ih =>
    intro h1 h2
    rw [List.map_cons, List.nodup_cons] at h1
    rcases List.mem_cons.mp h2 with h2 | h2
    · subst h2
      have ht : t.filter (fun m => decide (m.id = n.id)) = [] := by
        rw [List.filter_eq_nil_iff]
        intro a ha
        simp only [decide_eq_true_eq]
        intro hEq
        exact h1.1 (hEq ▸ List.mem_map_of_mem Node.id ha)
      simp [List.filter_cons, ht]
    · have hne : ¬ m.id = n.id := by
        intro hEq
        exact h1.1 (hEq ▸ List.mem_map_of_mem Node.id h2)
      rw [List.filter_cons]
      simp only [hne, decide_False, cond_false]
      exact ih h1.2 h2

/-- C1: deleting a node via `handleDeleteNode` removes the node and every
edge whose source or target equals its id, so no edge of the resulting
graph references it; the removed node and the ordered list of its
connected edges are retained as the deletion record for the undo
mechanism. -/
theorem deleteNode_cascade (s : FlowState) (n : Node) (now : Nat) :
    (∀ e ∈ (handleDeleteNode s n now).edges, e.source ≠ n.id ∧ e.target ≠ n.id)
    ∧ (∀ m ∈ (handleDeleteNode s n now).nodes, m.id ≠ n.id)
    ∧ (handleDeleteNode s n now).deletedNodeData =
        some { node := n,
               connectedEdges := s.edges.filter (fun e => connectedTo n.id e),
               timestamp := now } := by
  refine ⟨?_, ?_, rfl⟩
  · intro e he
    have := List.of_mem_filter he
    simp only [connectedTo, Bool.not_eq_true', Bool.or_eq_false_iff,
      decide_eq_false_iff_not] at this
    exact this
  · intro m hm
    have := List.of_mem_filter hm
    simp only [Bool.not_eq_true', decide_eq_false_iff_not] at this
    exact this

/-- C1 witness: deleting the "tools" node from the initial graph leaves
the start-to-agent edge, and that edge does not reference "tools". -/
theorem deleteNode_cascade_w :
    { id := "e-start-agent", source := "start", target := "agent",
      sourceHandle := some "output", targetHandle := some "input" : Edge }
        ∈ (handleDeleteNode initialFlow (initialNodes.get ⟨2, by decide⟩) 5).edges
    ∧ ({ id := "e-start-agent", source := "start", target := "agent",
         sourceHandle := some "output", targetHandle := some "input" : Edge }.source
          ≠ (initialNodes.get ⟨2, by decide⟩).id
        ∧ ({ id := "e-start-agent", source := "start", target := "agent",
             sourceHandle := some "output", targetHandle := some "input" : Edge }.target
          ≠ (initialNodes.get ⟨2, by decide⟩).id)) :=
  ⟨by decide,
   (deleteNode_cascade initialFlow (initialNodes.get ⟨2, by decide⟩) 5).1 _ (by decide)⟩

/-- C2: undo immediately after a deletion restores a graph whose node
list and edge list are permutations of the pre-deletion ones (same node
ids, same edge ids, same endpoints), provided the deleted node was in
the graph and node ids are pairwise distinct; undo after the 10-second
timer has fired, or with no pending deletion record, leaves the state
unchanged. -/
theorem undo_restores (s : FlowState) (n : Node) (now : Nat)
    (h1 : (s.nodes.map Node.id).Nodup) (h2 : n ∈ s.nodes) :
    (undoNodeDeletion (handleDeleteNode s n now)).nodes.Perm s.nodes
    ∧ (undoNodeDeletion (handleDeleteNode s n now)).edges.Perm s.edges
    ∧ (undoNodeDeletion (handleDeleteNode s n now)).deletedNodeData = none
    ∧ (∀ t : FlowState, undoNodeDeletion (undoTimerExpire t) = undoTimerExpire t)
    ∧ (∀ t : FlowState, t.deletedNodeData = none → undoNodeDeletion t = t) := by
  refine ⟨?_, ?_, rfl, fun t => rfl, fun t ht => ?_⟩
  · show (s.nodes.filter (fun m => !decide (m.id = n.id)) ++ [n]).Perm s.nodes
    have hperm := List.filter_append_perm (fun m => decide (m.id = n.id)) s.nodes
    rw [filter_id_eq_single n s.nodes h1 h2] at hperm
    exact List.perm_append_comm.trans hperm
  · show ((s.edges.filter (fun e => !connectedTo n.id e))
        ++ s.edges.filter (fun e => connectedTo n.id e)).Perm s.edges
    exact List.perm_append_comm.trans
      (List.filter_append_perm (fun e => connectedTo n.id e) s.edges)
  · unfold undoNodeDeletion
    rw [ht]

/-- C2 witness: deleting the "tools" node of the initial graph and
undoing restores permutations of the initial node and edge lists, and
undo after expiry is the identity on a concrete state. -/
theorem undo_restores_w :
    (undoNodeDeletion (handleDeleteNode initialFlow (initialNodes.get ⟨2, by decide⟩) 7)).nodes.Perm
        initialFlow.nodes
    ∧ (undoNodeDeletion (handleDeleteNode initialFlow (initialNodes.get ⟨2, by decide⟩) 7)).edges.Perm
        initialFlow.edges
    ∧ undoNodeDeletion (undoTimerExpire initialFlow) = undoTimerExpire initialFlow :=
  have h := undo_restores initialFlow (initialNodes.get ⟨2, by decide⟩) 7
    (by decide) (by decide)
  ⟨h.1, h.2.1, h.2.2.2.1 initialFlow⟩

/-- A graph snapshot handed to the persistence layer: the `(nodes,
edges)` argument pair of `saveWorkflow` / `autoSaveWorkflow` in
actions/workflow.ts. -/
structure Snapshot where
  nodes : List Node
  edges : List Edge
  deriving DecidableEq, Repr

/-- The events that drive the autosave pipeline of actions/workflow.ts
and hooks/use-workflow.ts: `schedule` is a call to `autoSaveWorkflow`
(which stores its snapshot in the single module-level `autoSaveTimeout`
timer), `manualSave` is the `save` callback of `useWorkflow` (which
calls `saveWorkflow` directly), and `fire` is the expiry of the live
debounce timer, if any. -/
inductive PipeEvent where
  | schedule (snap : Snapshot)
  | manualSave (snap : Snapshot)
  | fire
  deriving DecidableEq, Repr

/-- The autosave pipeline state: the single `autoSaveTimeout` slot (the
snapshot captured by the closure of the live debounce timer, if one is
live) and the ordered record of persistence calls issued so far. -/
structure PipeState where
  pending : Option Snapshot
  saves : List Snapshot
  deriving DecidableEq, Repr

/-- One pipeline step. `schedule` mirrors `autoSaveWorkflow`: it clears
any existing timeout and sets a new one capturing the snapshot passed to
this call. `manualSave` mirrors `save` in use-workflow.ts: it invokes
`saveWorkflow` at once and does not touch `autoSaveTimeout`. `fire`
mirrors the timeout callback: it invokes `saveWorkflow` with the
captured snapshot. -/
def pipeStep (st : PipeState) : PipeEvent → PipeState
  | .schedule snap => { st with pending := some snap }
  | .manualSave snap => { st with saves := st.saves ++ [snap] }
  | .fire =>
    match st.pending with
    | none => st
    | some snap => { pending := none, saves := st.saves ++ [snap] }

/-- Run a sequence of pipeline events. -/
def runEvents (st : PipeState) (evs : List PipeEvent) : PipeState :=
  evs.foldl pipeStep st

/-- The pipeline state before any scheduling. -/
def initPipe : PipeState := { pending := none, saves := [] }

/-- Number of debounce timers alive in a pipeline state. -/
def timerCount (st : PipeState) : Nat := st.pending.toList.length

/-- Scheduling a burst of snapshots issues no save and leaves the last
snapshot (if any) in the timer slot. -/
theorem runEvents_schedules (ss : List Snapshot) :
    ∀ st : PipeState, runEvents st (ss.map PipeEvent.schedule) =
      { st with pending := ss.foldl (fun _ snap => some snap) st.pending } := by
  induction ss with
  | nil => intro st; rfl
  | cons a t ih =>
    intro st
    show runEvents { st with pending := some a } (t.map PipeEvent.schedule) = _
    rw [ih { st with pending := some a }]
    rfl

/-- Folding the overwrite function over a nonempty list keeps only the
last element. -/
theorem foldl_overwrite (ss : List Snapshot) (h : ss ≠ []) :
    ∀ p : Option Snapshot, ss.foldl (fun _ snap => some snap) p = some (ss.getLast h) := by
  induction ss with
  | nil => exact absurd rfl h
  | cons a t ih =>
    intro p
    cases t with
    | nil => rfl
    | cons b t2 =>
      show (b :: t2).foldl (fun _ snap => some snap) (some a) = _
      rw [ih (by simp) (some a)]
      rfl

/-- C3: scheduling the debounced auto-save N ≥ 1 times within one
debounce window (no intervening fire) and then letting the timer fire
issues exactly one persistence call, and it carries the snapshot of the
last schedule call; the earlier snapshots are never persisted. -/
theorem debounce_coalesces (ss : List Snapshot) (h : ss ≠ []) :
    (pipeStep (runEvents initPipe (ss.map PipeEvent.schedule)) .fire).saves
      = [ss.getLast h]
    ∧ (pipeStep (runEvents initPipe (ss.map PipeEvent.schedule)) .fire).pending = none := by
  rw [runEvents_schedules ss initPipe, foldl_overwrite ss h]
  exact ⟨rfl, rfl⟩

/-- C3 witness: three schedule calls followed by the timer firing
persist exactly the third snapshot. -/
theorem debounce_coalesces_w :
    (pipeStep (runEvents initPipe
        ([⟨initialNodes, []⟩, ⟨[], initialEdges⟩, ⟨initialNodes, initialEdges⟩].map
          PipeEvent.schedule)) .fire).saves
      = [⟨initialNodes, initialEdges⟩] :=
  (debounce_coalesces
    [⟨initialNodes, []⟩, ⟨[], initialEdges⟩, ⟨initialNodes, initialEdges⟩]
    (by simp)).1

/-- C8 counterexample: in the trace schedule(s1); manualSave(s2); fire,
the debounce timer scheduled before the manual save still fires
afterwards and persists the stale snapshot s1, so the claim that a
manual save cancels any pending debounce timer (and that such a timer
never fires after a manual save) is false on the code: `save` in
use-workflow.ts never touches `autoSaveTimeout`. -/
theorem manualSave_no_cancel_cex :
    (runEvents initPipe
      [.schedule ⟨initialNodes, []⟩, .manualSave ⟨initialNodes, initialEdges⟩, .fire]).saves
      = [⟨initialNodes, initialEdges⟩, ⟨initialNodes, []⟩]
    ∧ (⟨initialNodes, []⟩ : Snapshot) ≠ ⟨initialNodes, initialEdges⟩ := by
  exact ⟨rfl, by decide⟩

/-- C8 amended: at most one auto-save debounce timer is alive at any
point, and a manual save triggers an immediate persistence call, but it
does not cancel a pending debounce timer: the timer slot is unchanged by
a manual save, so a previously scheduled debounce still fires
afterwards. -/
theorem manualSave_amended :
    (∀ (evs : List PipeEvent), timerCount (runEvents initPipe evs) ≤ 1)
    ∧ (∀ (st : PipeState) (snap : Snapshot),
        pipeStep st (.manualSave snap) = { st with saves := st.saves ++ [snap] }) := by
  constructor
  · intro evs
    have key : ∀ (l : List PipeEvent) (st : PipeState), timerCount (runEvents st l) ≤ 1 := by
      intro l
      induction l with
      | nil =>
        intro st
        cases h : st.pending <;> simp [runEvents, timerCount, h]
      | cons e t ih =>
        intro st
        show timerCount (runEvents (pipeStep st e) t) ≤ 1
        exact ih (pipeStep st e)
    exact key evs initPipe
  · intro st snap
    rfl

/-- A connection request, from the React Flow `Connection` passed to
`onConnect` in workflow/page.tsx; `source`/`target` use "" for a missing
endpoint (falsy in the source). -/
structure Connection where
  source : String
  target : String
  sourceHandle : Option String := none
  targetHandle : Option String := none
  deriving DecidableEq, Repr

/-- The string `startsWith` test, on the character sequences of the two
strings. -/
def strStartsWith (s pre : String) : Bool :=
  pre.data.isPrefixOf s.data

/-- The string `trim`, on the character sequence: whitespace stripped
from both ends. -/
def strTrim (s : String) : String :=
  ⟨((s.data.dropWhile Char.isWhitespace).reverse.dropWhile Char.isWhitespace).reverse⟩

/-- Optional-chaining `startsWith`: `handle?.startsWith(pre)` is falsy
when the handle is null/undefined. -/
def startsWithOpt (h : Option String) (pre : String) : Bool :=
  match h with
  | none => false
  | some s => strStartsWith s pre

/-- Embedding of the `addEdge` helper that workflow/page.tsx imports
from the external library and calls inside `onConnect`: it drops the
request when an endpoint is missing, skips it when an edge with the same
source, target and handles already exists, and otherwise appends an edge
whose id is derived from the endpoints and handles. -/
def libraryAddEdge (c : Connection) (edges : List Edge) : List Edge :=
  if c.source = "" ∨ c.target = "" then edges
  else if edges.any (fun e =>
      decide (e.source = c.source) && decide (e.target = c.target)
      && decide (e.sourceHandle = c.sourceHandle)
      && decide (e.targetHandle = c.targetHandle)) then edges
  else edges ++
    [{ id := "xy-edge__" ++ c.source ++ c.sourceHandle.getD ""
          ++ "-" ++ c.target ++ c.targetHandle.getD "",
       source := c.source, target := c.target,
       sourceHandle := c.sourceHandle, targetHandle := c.targetHandle }]

/-- `onConnect` from workflow/page.tsx (lines 208-217): only requests
whose source handle starts with "output" and whose target handle starts
with "input" are forwarded to the library `addEdge`; anything else is a
no-op. -/
def onConnect (c : Connection) (edges : List Edge) : List Edge :=
  if startsWithOpt c.sourceHandle "output" && startsWithOpt c.targetHandle "input" then
    libraryAddEdge c edges
  else edges

/-- The duplicate test of `addEdge` in sidebar/connect-tab.tsx:
an edge with the same ordered (source, target) pair already exists. -/
def samePair (s t : String) (e : Edge) : Bool :=
  decide (e.source = s) && decide (e.target = t)

/-- The edge built by `addEdge` in sidebar/connect-tab.tsx. -/
def mkConnectEdge (freshId s t : String) : Edge :=
  { id := freshId, source := s, target := t,
    sourceHandle := some "output", targetHandle := some "input" }

/-- `addEdge` from sidebar/connect-tab.tsx (lines 39-60): a no-op when
no source or target is selected, the selection is a self-loop, or an
edge with the same ordered (source, target) pair exists; otherwise
appends an edge with output/input handles. `freshId` is the generated
`edge-${Date.now()}` id. -/
def connectTabAddEdge (s t : String) (edges : List Edge) (freshId : String) : List Edge :=
  if s = "" ∨ t = "" ∨ s = t then edges
  else if edges.any (samePair s t) then edges
  else edges ++ [mkConnectEdge freshId s t]

/-- C4 counterexample: a self-loop request on the "agent" node with an
output source handle and an input target handle is not rejected by
`onConnect` on the empty edge list: the edge is added, and the graph
changes, contradicting the claim that `source = target` requests leave
the graph unchanged. -/
theorem onConnect_selfLoop_cex :
    onConnect { source := "agent", target := "agent",
                sourceHandle := some "output", targetHandle := some "input" } []
      = [{ id := "xy-edge__agentoutput-agentinput",
           source := "agent", target := "agent",
           sourceHandle := some "output", targetHandle := some "input" }]
    ∧ onConnect { source := "agent", target := "agent",
                  sourceHandle := some "output", targetHandle := some "input" } [] ≠ [] := by
  exact ⟨by decide, by decide⟩

/-- C4 amended: the Connect-tab `addEdge` rejects (graph unchanged)
exactly when no source or target is selected, the pair is a self-loop,
or an edge with the same ordered (source, target) pair exists, and
otherwise appends the edge with output/input handles; the canvas
`onConnect` rejects a request whose source handle does not start with
"output" or whose target handle does not start with "input", and
forwards every other request (including self-loops, which are added) to
the library addEdge, which appends the edge whenever no identical
(source, target, handles) edge exists and both endpoints are present. -/
theorem addEdge_guards :
    (∀ (s t : String) (edges : List Edge) (freshId : String),
        (s = "" ∨ t = "" ∨ s = t ∨ edges.any (samePair s t) = true) →
        connectTabAddEdge s t edges freshId = edges)
    ∧ (∀ (s t : String) (edges : List Edge) (freshId : String),
        s ≠ "" → t ≠ "" → s ≠ t → edges.any (samePair s t) = false →
        connectTabAddEdge s t edges freshId = edges ++ [mkConnectEdge freshId s t])
    ∧ (∀ (c : Connection) (edges : List Edge),
        (startsWithOpt c.sourceHandle "output" = false
          ∨ startsWithOpt c.targetHandle "input" = false) →
        onConnect c edges = edges)
    ∧ (∀ (c : Connection) (edges : List Edge),
        startsWithOpt c.sourceHandle "output" = true →
        startsWithOpt c.targetHandle "input" = true →
        c.source ≠ "" → c.target ≠ "" →
        edges.any (fun e =>
          decide (e.source = c.source) && decide (e.target = c.target)
          && decide (e.sourceHandle = c.sourceHandle)
          && decide (e.targetHandle = c.targetHandle)) = false →
        onConnect c edges = edges ++
          [{ id := "xy-edge__" ++ c.source ++ c.sourceHandle.getD ""
                ++ "-" ++ c.target ++ c.targetHandle.getD "",
             source := c.source, target := c.target,
             sourceHandle := c.sourceHandle, targetHandle := c.targetHandle }]) := by
  refine ⟨?_, ?_, ?_, ?_⟩
  · intro s t edges freshId h
    by_cases hc : s = "" ∨ t = "" ∨ s = t
    · simp [connectTabAddEdge, hc]
    · have hany : edges.any (samePair s t) = true := by
        rcases h with h | h | h | h
        · exact absurd (Or.inl h) hc
        · exact absurd (Or.inr (Or.inl h)) hc
        · exact absurd (Or.inr (Or.inr h)) hc
        · exact h
      simp [connectTabAddEdge, hc, hany]
  · intro s t edges freshId hs ht hst hdup
    unfold connectTabAddEdge
    rw [if_neg (by tauto), if_neg (by simp [hdup])]
  · intro c edges h
    unfold onConnect
    rcases h with h | h <;> simp [h]
  · intro c edges h1 h2 h3 h4 h5
    unfold onConnect libraryAddEdge
    rw [if_pos (by simp [h1, h2]), if_neg (by tauto), if_neg (by simp [h5])]

/-- C4 amended witness: concrete instances of each guard. -/
theorem addEdge_guards_w :
    connectTabAddEdge "agent" "agent" [] "edge-1" = []
    ∧ connectTabAddEdge "start" "agent" [] "edge-2"
        = [mkConnectEdge "edge-2" "start" "agent"]
    ∧ onConnect { source := "start", target := "agent",
                  sourceHandle := some "input", targetHandle := some "input" }
        initialEdges = initialEdges :=
  ⟨addEdge_guards.1 "agent" "agent" [] "edge-1" (by tauto),
   addEdge_guards.2.1 "start" "agent" [] "edge-2"
     (by decide) (by decide) (by decide) (by decide),
   addEdge_guards.2.2.1
     { source := "start", target := "agent",
       sourceHandle := some "input", targetHandle := some "input" }
     initialEdges (by left; decide)⟩

/-- The JSON body that `executeWorkflow` in actions/workflow.ts posts to
the execute endpoint. -/
structure ExecuteRequest where
  message : String
  session_id : String
  chat_id : Option String
  graph_name : String
  deriving DecidableEq, Repr

/-- The request construction of `executeWorkflow` in actions/workflow.ts
(lines 178-218): the function never rejects locally; `none` would model
a rejection before the network call, but every input produces `some`
request, with `session_id || workflow-${Date.now()}` as the session
field. `now` is `Date.now()`. -/
def executeWorkflow (message : String) (sessionId chatId : Option String)
    (now : Nat) : Option ExecuteRequest :=
  some { message := message,
         session_id := sessionId.getD ("workflow-" ++ toString now),
         chat_id := chatId,
         graph_name := "default" }

/-- C5 counterexample: with no session id supplied (and the backend
default `is_new_chat = false`), the client does not reject the request
before the network call: it sends a request carrying the client-generated
fallback identifier `workflow-<timestamp>`, contradicting the claim that
the request is rejected locally with a missing-session_id message and
that no fallback identifier is generated client-side. -/
theorem executeWorkflow_fallback_cex :
    executeWorkflow "hello" none none 42
      = some { message := "hello", session_id := "workflow-42",
               chat_id := none, graph_name := "default" }
    ∧ executeWorkflow "hello" none none 42 ≠ none := by
  exact ⟨by decide, by decide⟩

/-- C5 amended: for every execution request without a session id, the
client performs the network call (no local validation rejects it),
generating the fallback session identifier `workflow-` followed by the
current timestamp; a supplied session id is passed through unchanged. -/
theorem executeWorkflow_request (message : String) (chatId : Option String) (now : Nat) :
    executeWorkflow message none chatId now
      = some { message := message, session_id := "workflow-" ++ toString now,
               chat_id := chatId, graph_name := "default" }
    ∧ (∀ sid : String, executeWorkflow message (some sid) chatId now
        = some { message := message, session_id := sid,
                 chat_id := chatId, graph_name := "default" }) :=
  ⟨rfl, fun _ => rfl⟩

/-- The `useWorkflow` state fields that `save` touches, from
hooks/use-workflow.ts. -/
structure WorkflowUiState where
  isSaving : Bool
  hasUnsavedChanges : Bool
  lastSaved : Option Nat
  deriving DecidableEq, Repr

/-- The normalized outcome shape `{success, error?}` returned by every
action in actions/workflow.ts. -/
structure ActionResult where
  success : Bool
  error : Option String
  deriving DecidableEq, Repr

/-- What the transport layer handed back to `saveWorkflow`: an HTTP
response with its ok-flag and parsed error field, or a thrown network
error. -/
inductive FetchOutcome where
  | resp (ok : Bool) (error : Option String)
  | thrown (msg : String)
  deriving DecidableEq, Repr

/-- The result normalization of `saveWorkflow` in actions/workflow.ts:
a non-2xx response or a thrown error becomes `{success: false, error}`,
never an exception. -/
def saveWorkflowResult : FetchOutcome → ActionResult
  | .resp true _ => { success := true, error := none }
  | .resp false err => { success := false, error := some (err.getD "Failed to save workflow") }
  | .thrown msg => { success := false, error := some msg }

/-- The state update of `save` in hooks/use-workflow.ts (lines 56-81):
on success, clear `isSaving` and `hasUnsavedChanges` and stamp
`lastSaved`; on failure, only clear `isSaving`. `now` is `new Date()`. -/
def saveUi (st : WorkflowUiState) (result : ActionResult) (now : Nat) : WorkflowUiState :=
  if result.success then
    { isSaving := false, hasUnsavedChanges := false, lastSaved := some now }
  else
    { st with isSaving := false }

/-- A chat message as kept in the session store. -/
structure ChatMessage where
  role : String
  content : String
  deriving DecidableEq, Repr

/-- The outcome of the `sendMessage` server action as seen by
`sendChatMessage`: a successful response carrying the assistant message,
or a failure (transport error or `success: false`), which the hook turns
into a thrown-and-caught error string. -/
inductive SendOutcome where
  | ok (message : String)
  | fail (error : String)
  deriving DecidableEq, Repr

/-- The session-history effect of `sendChatMessage` in
hooks/use-chat-session.ts (lines 35-102), with no attachments: an empty
trimmed input or a send already in flight is a no-op; otherwise the user
message is appended immediately (before the network call), and then
either the assistant response or an `Error: ...` assistant message is
appended, depending on the outcome. -/
def sendChatMessage (messages : List ChatMessage) (isLoading : Bool)
    (content : String) (outcome : SendOutcome) : List ChatMessage :=
  if strTrim content = "" ∨ isLoading then messages
  else
    let afterUser := messages ++ [{ role := "user", content := strTrim content }]
    match outcome with
    | .ok message => afterUser ++ [{ role := "assistant", content := message }]
    | .fail error => afterUser ++ [{ role := "assistant", content := "Error: " ++ error }]

/-- C6 counterexample: a transport failure while sending "hi" to an
empty session does not leave the message history untouched: the
optimistically appended user message stays and an assistant error
message is appended, so the history changes from `[]` to two messages. -/
theorem sendFailure_mutates_cex :
    sendChatMessage [] false "hi" (.fail "Network error")
      = [{ role := "user", content := "hi" },
         { role := "assistant", content := "Error: Network error" }]
    ∧ sendChatMessage [] false "hi" (.fail "Network error") ≠ [] := by
  exact ⟨by decide, by decide⟩

/-- C6 amended: a transport failure is normalized to `{success: false,
error}`; a failed save leaves the dirty flag and `lastSaved` unchanged
(clearing only `isSaving`); but a failed send does not leave the session
history untouched: it appends the optimistic user message and an
assistant message carrying the error text. -/
theorem transportFailure_state (st : WorkflowUiState) (out : FetchOutcome)
    (messages : List ChatMessage) (content : String) (err : String) (now : Nat)
    (hfail : (saveWorkflowResult out).success = false)
    (hcontent : strTrim content ≠ "") :
    saveUi st (saveWorkflowResult out) now
      = { st with isSaving := false }
    ∧ (saveUi st (saveWorkflowResult out) now).hasUnsavedChanges = st.hasUnsavedChanges
    ∧ (saveUi st (saveWorkflowResult out) now).lastSaved = st.lastSaved
    ∧ (∀ okFlag errBody, out = .resp okFlag errBody → okFlag = false →
        (saveWorkflowResult out).error.isSome = true)
    ∧ sendChatMessage messages false content (.fail err)
        = messages ++ [{ role := "user", content := strTrim content },
                       { role := "assistant", content := "Error: " ++ err }] := by
  refine ⟨?_, ?_, ?_, ?_, ?_⟩
  · simp [saveUi, hfail]
  · simp [saveUi, hfail]
  · simp [saveUi, hfail]
  · intro okFlag errBody hout hok
    subst hout
    subst hok
    simp [saveWorkflowResult]
  · simp [sendChatMessage, hcontent]

/-- C6 amended witness: a concrete failed save and failed send. -/
theorem transportFailure_state_w :
    saveUi { isSaving := true, hasUnsavedChanges := true, lastSaved := none }
        (saveWorkflowResult (.resp false none)) 9
      = { isSaving := false, hasUnsavedChanges := true, lastSaved := none }
    ∧ sendChatMessage [] false "hi there" (.fail "Network error")
        = [{ role := "user", content := "hi there" },
           { role := "assistant", content := "Error: Network error" }] :=
  have h := transportFailure_state
    { isSaving := true, hasUnsavedChanges := true, lastSaved := none }
    (.resp false none) [] "hi there" "Network error" 9 (by decide) (by decide)
  ⟨h.1, h.2.2.2.2⟩

/-- The create-button disabled condition of sidebar/create-tab.tsx
(lines 252-263): a blank name, an agent with a blank prompt, or a tools
node with no selected tools. -/
def createButtonDisabled (name : String) (ty : NodeType) (prompt : String)
    (selection : List ToolType) : Bool :=
  decide (strTrim name = "")
  || (decide (ty = .agent) && decide (strTrim prompt = ""))
  || (decide (ty = .tools) && selection.isEmpty)

/-- The payload built by `addNode` in sidebar/create-tab.tsx for the
chosen node type; `description || undefined` maps "" to absent, and no
branch ever sets `ragDataSource`. -/
def createNodeData (name description : String) (ty : NodeType) (prompt : String)
    (selection : List ToolType) : NodeData :=
  let desc : Option String := if description = "" then none else some description
  match ty with
  | .agent => { name := name, description := desc, nodeType := .agent, prompt := some prompt }
  | .tools => { name := name, description := desc, nodeType := .tools,
                selectedTools := selection }
  | ty => { name := name, description := desc, nodeType := ty }

/-- `addNode` from sidebar/create-tab.tsx (lines 66-111): returns the
node list unchanged when the trimmed name is empty, otherwise appends a
new node with the payload for the chosen type. `freshId` is the
generated `node-${Date.now()}` id and `pos` the random position. -/
def createTabAddNode (name description : String) (ty : NodeType) (prompt : String)
    (selection : List ToolType) (nodes : List Node) (freshId : String) (pos : Pos) :
    List Node :=
  if strTrim name = "" then nodes
  else nodes ++ [{ id := freshId, position := pos,
                   data := createNodeData name description ty prompt selection }]

/-- C7 counterexample: a tools node named "RAG Tools" with
`selectedTools = [rag]` and no `ragDataSource` is not blocked: the
create button is enabled and `addNode` appends the node, whose
`ragDataSource` is absent, contradicting the claim that creation is
rejected until `ragDataSource` is non-empty. -/
theorem ragNode_created_cex :
    createButtonDisabled "RAG Tools" .tools "" [.rag] = false
    ∧ createTabAddNode "RAG Tools" "" .tools "" [.rag] [] "node-1" { x := 0, y := 0 }
      = [{ id := "node-1", position := { x := 0, y := 0 },
           data := { name := "RAG Tools", nodeType := .tools,
                     selectedTools := [.rag] } }] := by
  exact ⟨by decide, by decide⟩

/-- C7 amended: creating a tools node requires only a non-blank name and
a non-empty tool selection; whether `rag` is selected is irrelevant, and
the created node always has no `ragDataSource` (the field is only
editable later in the Edit tab and is never enforced). -/
theorem createToolsNode_noRagGuard (name description prompt : String)
    (selection : List ToolType) (nodes : List Node) (freshId : String) (pos : Pos)
    (hname : strTrim name ≠ "") (hsel : selection ≠ []) :
    createButtonDisabled name .tools prompt selection = false
    ∧ createTabAddNode name description .tools prompt selection nodes freshId pos
        = nodes ++ [{ id := freshId, position := pos,
                      data := { name := name,
                                description := if description = "" then none
                                  else some description,
                                nodeType := .tools, selectedTools := selection } }] := by
  constructor
  · simp [createButtonDisabled, hname, List.isEmpty_iff, hsel]
  · simp [createTabAddNode, hname, createNodeData]

/-- C7 amended witness: the rag-only tools node of the counterexample
scenario is created. -/
theorem createToolsNode_noRagGuard_w :
    createButtonDisabled "My Tools" .tools "" [.rag] = false
    ∧ createTabAddNode "My Tools" "desc" .tools "" [.rag] [] "node-2" { x := 1, y := 2 }
        = [{ id := "node-2", position := { x := 1, y := 2 },
             data := { name := "My Tools", description := some "desc",
                       nodeType := .tools, selectedTools := [.rag] } }] :=
  have h := createToolsNode_noRagGuard "My Tools" "desc" "" [.rag] [] "node-2"
    { x := 1, y := 2 } (by decide) (by decide)
  ⟨h.1, by rw [h.2]; rfl⟩

/-- A message of a persisted backend session (type, content, id), from
the execute response schema in API_DOCUMENTATION.md. -/
structure SessionMessage where
  type : String
  content : String
  id : String
  deriving DecidableEq, Repr

/-- Modelled from the spec: the backend prompt-context construction for
an existing session is not under src/ (only API_DOCUMENTATION.md
describes it, Context Window section: "Last 10 messages are used for
conversation context"); the context passed to execution is the suffix of
the stored history consisting of its most recent 10 messages. -/
def contextWindow (history : List SessionMessage) : List SessionMessage :=
  history.drop (history.length - 10)

/-- Modelled from the spec: backend conversation persistence is not
under src/ (API_DOCUMENTATION.md, Conversation Persistence section:
"Messages are automatically saved after each execution"); an execution
turn appends the new messages to the stored history and never discards
stored ones. -/
def executionTurn (history newMessages : List SessionMessage) : List SessionMessage :=
  history ++ newMessages

/-- C9: for a session with more than 10 stored messages, the context
passed to execution is exactly the most recent 10 messages, the stored
history splits as the older prefix followed by that context (so the
window is a read-time projection and nothing is deleted), and every
stored message is still stored after a further execution turn. -/
theorem contextWindow_projection (history newMessages : List SessionMessage)
    (h : history.length > 10) :
    (contextWindow history).length = 10
    ∧ history.take (history.length - 10) ++ contextWindow history = history
    ∧ ∀ m ∈ history, m ∈ executionTurn history newMessages := by
  refine ⟨?_, ?_, ?_⟩
  · unfold contextWindow
    rw [List.length_drop]
    omega
  · exact List.take_append_drop (history.length - 10) history
  · intro m hm
    exact List.mem_append_left newMessages hm

/-- C9 witness: a 15-message session yields a 10-message context which
is the stored suffix, and the store keeps all 15. -/
theorem contextWindow_projection_w :
    (contextWindow ((List.range 15).map
        (fun i => { type := "human", content := toString i, id := toString i }))).length = 10
    ∧ ((List.range 15).map
          (fun i => { type := "human", content := toString i, id := toString i })).take 5
        ++ contextWindow ((List.range 15).map
          (fun i => { type := "human", content := toString i, id := toString i }))
      = (List.range 15).map
          (fun i => { type := "human", content := toString i, id := toString i }) :=
  have h := contextWindow_projection
    ((List.range 15).map (fun i => { type := "human", content := toString i, id := toString i }))
    [] (by decide)
  ⟨h.1, by
    have h2 := h.2.1
    simpa using h2⟩

/-- `removeNode` from sidebar/edit-tab.tsx (lines 79-92), combined with
the page-level deletion callback: selecting nothing is a no-op; a
selected node whose `nodeType` is start or end is a no-op (the guard
returns early, and the delete button is not rendered for system nodes);
otherwise the node is handed to `handleDeleteNode`. -/
def editTabRemoveNode (selected : Option Node) (s : FlowState) (now : Nat) : FlowState :=
  match selected with
  | none => s
  | some n =>
    if n.data.nodeType = .start ∨ n.data.nodeType = .«end» then s
    else handleDeleteNode s n now

/-- The render guard of sidebar/edit-tab.tsx (lines 268-276): the
delete button is shown only for nodes that are not system nodes. -/
def deleteButtonVisible (d : NodeData) : Bool :=
  !(decide (d.nodeType = .start) || decide (d.nodeType = .«end»))

/-- C10: the Edit-tab delete operation is a no-op on a node of type
start or end (the node stays, no edge is removed, and the delete button
is not even rendered), while an agent or tools node is deleted via the
cascade deletion handler. -/
theorem editTabRemoveNode_system_noop (s : FlowState) (n : Node) (now : Nat) :
    (n.data.nodeType = .start ∨ n.data.nodeType = .«end» →
      editTabRemoveNode (some n) s now = s ∧ deleteButtonVisible n.data = false)
    ∧ (n.data.nodeType = .agent ∨ n.data.nodeType = .tools →
      editTabRemoveNode (some n) s now = handleDeleteNode s n now) := by
  constructor
  · intro h
    refine ⟨by simp [editTabRemoveNode, h], ?_⟩
    rcases h with h | h <;> simp [deleteButtonVisible, h]
  · intro h
    have hne : ¬(n.data.nodeType = .start ∨ n.data.nodeType = .«end») := by
      rcases h with h | h <;> simp [h]
    simp [editTabRemoveNode, hne]

/-- C10 witness: deleting the initial "start" node through the Edit tab
leaves the initial state unchanged, while the "tools" node is deleted. -/
theorem editTabRemoveNode_system_noop_w :
    editTabRemoveNode (some (initialNodes.get ⟨0, by decide⟩)) initialFlow 3 = initialFlow
    ∧ editTabRemoveNode (some (initialNodes.get ⟨2, by decide⟩)) initialFlow 3
        = handleDeleteNode initialFlow (initialNodes.get ⟨2, by decide⟩) 3 :=
  ⟨((editTabRemoveNode_system_noop initialFlow (initialNodes.get ⟨0, by decide⟩) 3).1
      (by decide)).1,
   (editTabRemoveNode_system_noop initialFlow (initialNodes.get ⟨2, by decide⟩) 3).2
      (by decide)⟩

end Deepflow
